import Mathlib

/-!
Verification of the Windows packaging module (`build/modules/package_windows.py`)
of the BrowserOS repository.

The module is sequential orchestration: check file existence, shell out to
external tools, copy/zip artifacts, and branch on environment configuration.
We embed it shallowly: external nondeterminism (whether a spawned command
raises, what it does to the filesystem, what `shutil.which` finds, what the
interactive OTP prompt returns, ...) is collected in an `Oracle`; mutable
process state (path existence, archive contents, the working directory) is a
`Sys` value threaded explicitly; a Python exception escaping a function is
`Except.error ()`; every `run_command` invocation is recorded in a trace.
-/

namespace PackageWindows

/-- A shell command, as the list of its argv strings. -/
abbrev Cmd := List String

/-- The sequence of `run_command` invocations an operation performed. -/
abbrev Trace := List Cmd

/-- Process environment: maps a variable name to its value when set. -/
abbrev Env := String → Option String

/-- Python truthiness of an optional string: `None` and `""` are falsy. -/
def truthy (v : Option String) : Bool :=
  v.getD "" != ""

/-- Python's `str.lower()` on the character list of the string (the
environment values compared here are ASCII). -/
def str_lower (s : String) : String :=
  String.mk (s.data.map Char.toLower)

/-- Mutable process-visible state: which paths exist on disk, the single
entry stored in each archive this module wrote, and the current working
directory of the process. -/
structure Sys where
  pathExists : String → Bool
  zipEntryOf : String → Option String
  cwd : String

/-- External nondeterminism. `runCmdRaises cmd` tells whether `run_command cmd`
raises; `runCmdEffect cmd` is what the spawned process did to path existence
(applied whether or not the command afterwards raises, since a failing build
may still have produced files). `mkdirRaises`, `copy2Raises` and `zipRaises`
model I/O errors of `Path.mkdir`, `shutil.copy2` and the `zipfile` writer;
`which` models `shutil.which`; `glob d pat` models `Path(d).glob(pat)`;
`readTextFile` is `Path.read_text` (`none` when it raises); `getpassOtp` is
the interactively entered OTP string; `signLocalPfx binary pfx` is the boolean
result of the external `sign_with_local_pfx` collaborator; `isWindows`
mirrors `utils.IS_WINDOWS`. -/
structure Oracle where
  isWindows : Bool
  runCmdRaises : Cmd → Bool
  runCmdEffect : Cmd → (String → Bool) → (String → Bool)
  mkdirRaises : String → Bool
  copy2Raises : String → String → Bool
  zipRaises : String → Bool
  which : String → Option String
  glob : String → String → List String
  readTextFile : String → Option String
  getpassOtp : String
  signLocalPfx : String → String → Bool

/-- Modelled from the spec: `utils.join_paths` (the `utils` module is not in
`src/`) joins path segments; the spec treats paths as opaque strings, so we
join with a separator. -/
def join_paths (a b : String) : String := a ++ "/" ++ b

/-- Modelled from the spec: the `BuildContext` configuration value object
(module `context`, not in `src/`) — "source tree path, build output
directory, target architecture, application name, version string(s)", plus
the distribution-directory accessor; immutable, only read here. The two
distinct version accessors of the source are kept distinct. -/
structure BuildContext where
  chromium_src : String
  out_dir : String
  architecture : String
  get_dist_dir : String
  get_app_base_name : String
  get_nxtscape_chromium_version : String
  get_nxtscape_version : String

/-- Modelled from the spec: `utils.run_command` (not in `src/`) runs an
external process, which mutates the filesystem and may raise
("an invoked process exits with an error or raises"). It returns whether it
raised together with the filesystem after the attempt. -/
def run_command (o : Oracle) (cmd : Cmd) (fs : String → Bool) :
    Bool × (String → Bool) :=
  (o.runCmdRaises cmd, o.runCmdEffect cmd fs)

/-- Directory of a path string, as `Path.parent`: all components but the last. -/
def dirname (p : String) : String :=
  String.intercalate "/" (p.splitOn "/").dropLast

/-- The build output directory `join_paths(ctx.chromium_src, ctx.out_dir)`. -/
def build_output_dir (ctx : BuildContext) : String :=
  join_paths ctx.chromium_src ctx.out_dir

/-- Path of `mini_installer.exe` inside the build output directory. -/
def mini_installer_path (ctx : BuildContext) : String :=
  join_paths (build_output_dir ctx) "mini_installer.exe"

/-- The autoninja invocation of `build_mini_installer`: `autoninja.bat` on
Windows, with the relative output directory and the `mini_installer`
target. -/
def autoninja_build_cmd (ctx : BuildContext) (o : Oracle) : Cmd :=
  [if o.isWindows then "autoninja.bat" else "autoninja",
   "-C", ctx.out_dir, "mini_installer"]

/-- `build_mini_installer`: return immediately when `mini_installer.exe`
exists; otherwise run autoninja from `ctx.chromium_src` (saving and restoring
the working directory in a `try`/`finally`), re-check existence, and convert
every exception into a `false` result. Returns the result, the final state
and the trace of commands run. -/
def build_mini_installer (ctx : BuildContext) (o : Oracle) (s : Sys) :
    Bool × Sys × Trace :=
  if s.pathExists (mini_installer_path ctx) then
    (true, s, [])
  else
    let cmd : Cmd := autoninja_build_cmd ctx o
    let old_cwd := s.cwd
    let s1 : Sys := { s with cwd := ctx.chromium_src }
    let (raised, fs2) := run_command o cmd s1.pathExists
    let s2 : Sys := { s1 with pathExists := fs2, cwd := old_cwd }
    if raised then
      (false, s2, [cmd])
    else if s2.pathExists (mini_installer_path ctx) then
      (true, s2, [cmd])
    else
      (false, s2, [cmd])

/-- Installer file name, from the f-string at line 112 of the source:
`{app_base_name}_{nxtscape_chromium_version}_{architecture}_installer.exe`. -/
def installer_name (ctx : BuildContext) : String :=
  ctx.get_app_base_name ++ "_" ++ ctx.get_nxtscape_chromium_version ++ "_" ++
    ctx.architecture ++ "_installer.exe"

/-- Zip file name, from the f-string at line 143 of the source:
`{app_base_name}_{nxtscape_chromium_version}_{architecture}_installer.zip`. -/
def zip_name (ctx : BuildContext) : String :=
  ctx.get_app_base_name ++ "_" ++ ctx.get_nxtscape_chromium_version ++ "_" ++
    ctx.architecture ++ "_installer.zip"

/-- Internal zip entry name, from the f-string at line 150 of the source:
it uses `get_nxtscape_version`, not `get_nxtscape_chromium_version`. -/
def zip_entry_name (ctx : BuildContext) : String :=
  ctx.get_app_base_name ++ "_" ++ ctx.get_nxtscape_version ++ "_" ++
    ctx.architecture ++ "_installer.exe"

/-- Mark one more path as existing. -/
def addPath (fs : String → Bool) (p : String) : String → Bool :=
  fun q => q == p || fs q

/-- `create_installer`: fail when the source binary is absent; create the
distribution directory (`mkdir` is OUTSIDE the `try` block in the source, so
an error there escapes as an exception); copy the binary to the stamped name,
converting a copy error into a `false` result. -/
def create_installer (ctx : BuildContext) (o : Oracle) (s : Sys) :
    Except Unit (Bool × Sys) :=
  if !s.pathExists (mini_installer_path ctx) then
    Except.ok (false, s)
  else
    let output_dir := ctx.get_dist_dir
    if o.mkdirRaises output_dir then
      Except.error ()
    else
      let s1 : Sys := { s with pathExists := addPath s.pathExists output_dir }
      let installer_path := join_paths output_dir (installer_name ctx)
      if o.copy2Raises (mini_installer_path ctx) installer_path then
        Except.ok (false, s1)
      else
        Except.ok (true,
          { s1 with pathExists := addPath s1.pathExists installer_path })

/-- `create_portable_zip`: fail when the source binary is absent; create the
distribution directory (again OUTSIDE the `try` block); write a single-entry
zip whose internal entry name uses the `get_nxtscape_version` accessor,
converting a zip-writing error into a `false` result. -/
def create_portable_zip (ctx : BuildContext) (o : Oracle) (s : Sys) :
    Except Unit (Bool × Sys) :=
  if !s.pathExists (mini_installer_path ctx) then
    Except.ok (false, s)
  else
    let output_dir := ctx.get_dist_dir
    if o.mkdirRaises output_dir then
      Except.error ()
    else
      let s1 : Sys := { s with pathExists := addPath s.pathExists output_dir }
      let zip_path := join_paths output_dir (zip_name ctx)
      if o.zipRaises zip_path then
        Except.ok (false, s1)
      else
        Except.ok (true,
          { s1 with
            pathExists := addPath s1.pathExists zip_path,
            zipEntryOf := fun q =>
              if q == zip_path then some (zip_entry_name ctx)
              else s1.zipEntryOf q })

/-- The two candidate binaries to sign, `chrome.exe` and `mini_installer.exe`
in the build output directory. -/
def binaries_to_sign (ctx : BuildContext) : List String :=
  [join_paths (build_output_dir ctx) "chrome.exe",
   join_paths (build_output_dir ctx) "mini_installer.exe"]

/-- The candidate binaries that exist on disk, in candidate order. -/
def existing_binaries (ctx : BuildContext) (fs : String → Bool) : List String :=
  (binaries_to_sign ctx).filter fs

/-- The hard-coded default location tried for `CodeSignTool.bat`. -/
def codesigntool_default : String :=
  "C:/src/BrowserOS/CodeSignTool-v1.3.2-windows/CodeSignTool.bat"

/-- The `CodeSignTool` path resolution of `sign_with_esigner`: the
`CODESIGNTOOL_PATH` environment value when truthy, else the hard-coded
default location when it exists, else a bare relative `CodeSignTool.bat`. -/
def codesigntool_path (env : Env) (fs : String → Bool) : String :=
  if truthy (env "CODESIGNTOOL_PATH") then
    (env "CODESIGNTOOL_PATH").getD ""
  else if fs codesigntool_default then
    codesigntool_default
  else
    "CodeSignTool.bat"

/-- The per-binary `CodeSignTool sign` command built by `sign_with_esigner`. -/
def esigner_cmd (tool username password totp_secret : String)
    (credential_id : Option String) (binary : String) : Cmd :=
  [tool, "sign", "-username", username, "-password", password,
   "-input_file_path", binary, "-output_dir_path", dirname binary,
   "-override"] ++
  ["-totp_secret", totp_secret] ++
  (if truthy credential_id then ["-credential_id", credential_id.getD ""]
   else [])

/-- The per-binary loop of `sign_with_esigner`. Inside the loop the OTP mode
hits `return False` before any command is run; otherwise each binary's
command is run, an exception marks overall failure, and iteration continues. -/
def esigner_loop (tool : String) (use_otp : Bool)
    (username password totp_secret : String) (credential_id : Option String)
    (o : Oracle) : List String → Bool × Trace
  | [] => (true, [])
  | binary :: rest =>
    if use_otp then
      (false, [])
    else
      let cmd := esigner_cmd tool username password totp_secret credential_id
        binary
      let raised := o.runCmdRaises cmd
      let (r, t) := esigner_loop tool use_otp username password totp_secret
        credential_id o rest
      ((!raised && r), cmd :: t)

/-- `sign_with_esigner`: resolve the CodeSignTool path and fail when it does
not exist; read the eSigner credentials from the environment; in OTP mode
prompt for a 6-digit code (rejecting other lengths), otherwise require a
truthy TOTP secret; require truthy username and password; then sign each
binary, aggregating failures without early abort — except that OTP mode, an
unsupported configuration, returns `false` from the first loop iteration. -/
def sign_with_esigner (binaries : List String) (o : Oracle) (env : Env)
    (fs : String → Bool) : Bool × Trace :=
  let tool := codesigntool_path env fs
  if !fs tool then
    (false, [])
  else
    let username := env "ESIGNER_USERNAME"
    let password := env "ESIGNER_PASSWORD"
    let totp_secret := env "ESIGNER_TOTP_SECRET"
    let credential_id := env "ESIGNER_CREDENTIAL_ID"
    let use_otp := str_lower ((env "ESIGNER_USE_OTP").getD "false") == "true"
    let otp_gate :=
      if use_otp then
        let otp_code := o.getpassOtp
        !(otp_code == "" || otp_code.length != 6)
      else
        truthy totp_secret
    if !otp_gate then
      (false, [])
    else if !(truthy username && truthy password) then
      (false, [])
    else
      esigner_loop tool use_otp (username.getD "") (password.getD "")
        (totp_secret.getD "") credential_id o binaries

/-- `sign_with_pfx`: require a truthy `PFX_PATH` pointing at an existing
file; then delegate each binary to the external `sign_with_local_pfx`
routine, aggregating failures without early abort. -/
def sign_with_pfx (binaries : List String) (o : Oracle) (env : Env)
    (fs : String → Bool) : Bool × Trace :=
  let pfx_path := env "PFX_PATH"
  if !truthy pfx_path || !fs (pfx_path.getD "") then
    (false, [])
  else
    (binaries.foldl
      (fun acc binary =>
        if o.signLocalPfx binary (pfx_path.getD "") then acc else false)
      true, [])

/-- The Windows SDK locations scanned for `signtool.exe`. -/
def sdk_paths : List String :=
  ["C:/Program Files (x86)/Windows Kits/10/bin",
   "C:/Program Files/Windows Kits/10/bin"]

/-- Scan one SDK root: the first `*/x64` subdirectory holding an existing
`signtool.exe`. -/
def find_signtool_in (o : Oracle) (fs : String → Bool) (sdk_path : String) :
    Option String :=
  (o.glob sdk_path "*/x64").findSome? fun arch_dir =>
    let potential := join_paths arch_dir "signtool.exe"
    if fs potential then some potential else none

/-- The `signtool` discovery of `sign_with_certificate_store`: `shutil.which`
first, else the first existing SDK root that yields a hit. -/
def find_signtool (o : Oracle) (fs : String → Bool) : Option String :=
  match o.which "signtool" with
  | some p => some p
  | none =>
    sdk_paths.findSome? fun sdk_path =>
      if fs sdk_path then find_signtool_in o fs sdk_path else none

/-- The per-binary `signtool sign` command of `sign_with_certificate_store`. -/
def store_sign_cmd (signtool cert binary : String) : Cmd :=
  [signtool, "sign", "/n", cert, "/tr", "http://ts.ssl.com", "/td", "sha256",
   "/fd", "sha256", binary]

/-- The per-binary `signtool verify` command of
`sign_with_certificate_store`. -/
def store_verify_cmd (signtool binary : String) : Cmd :=
  [signtool, "verify", "/pa", binary]

/-- The per-binary loop of `sign_with_certificate_store`: sign, then verify;
an exception from either command (the verify command is only reached when
the sign command did not raise) marks that binary failed, and iteration
continues with the remaining binaries. -/
def store_loop (signtool cert : String) (o : Oracle) :
    List String → Bool × Trace
  | [] => (true, [])
  | binary :: rest =>
    let step :=
      if o.runCmdRaises (store_sign_cmd signtool cert binary) then
        (false, [store_sign_cmd signtool cert binary])
      else if o.runCmdRaises (store_verify_cmd signtool binary) then
        (false, [store_sign_cmd signtool cert binary,
                 store_verify_cmd signtool binary])
      else
        (true, [store_sign_cmd signtool cert binary,
                store_verify_cmd signtool binary])
    let (r, t) := store_loop signtool cert o rest
    ((step.1 && r), step.2 ++ t)

/-- `sign_with_certificate_store`: locate `signtool.exe` (failing when it is
nowhere to be found), then run the sign-then-verify loop. -/
def sign_with_certificate_store (binaries : List String) (cert : String)
    (o : Oracle) (fs : String → Bool) : Bool × Trace :=
  match find_signtool o fs with
  | none => (false, [])
  | some signtool => store_loop signtool cert o binaries

/-- `sign_binaries`, the signing dispatcher: lowercase the `SIGNING_METHOD`
environment value (defaulting to `signtool`); fail when no candidate binary
exists; route to eSigner when the method is `esigner` or `ESIGNER_USERNAME`
is truthy; else to PFX when `PFX_PATH` is truthy; else skip with success
when no truthy certificate name was supplied; else to the certificate
store. -/
def sign_binaries (ctx : BuildContext) (certificate_name : Option String)
    (o : Oracle) (env : Env) (fs : String → Bool) : Bool × Trace :=
  let signing_method := str_lower ((env "SIGNING_METHOD").getD "signtool")
  let existing := existing_binaries ctx fs
  if existing.isEmpty then
    (false, [])
  else if signing_method == "esigner" || truthy (env "ESIGNER_USERNAME") then
    sign_with_esigner existing o env fs
  else if truthy (env "PFX_PATH") then
    sign_with_pfx existing o env fs
  else if !truthy certificate_name then
    (true, [])
  else
    sign_with_certificate_store existing (certificate_name.getD "") o fs

/-- Python's substring test `needle in haystack`, on the character lists of
the strings. -/
def strContains (haystack needle : String) : Bool :=
  (List.range (haystack.data.length + 1)).any fun i =>
    needle.data.isPrefixOf (haystack.data.drop i)

/-- `get_target_cpu`: read `args.gn` in the build output directory and return
the first of `x64`, `x86`, `arm64` whose `target_cpu="..."` assignment occurs
in it; default to `x64` when the file is absent, reading it raises, or no
pattern matches. -/
def get_target_cpu (o : Oracle) (fs : String → Bool)
    (bdir : String) : String :=
  if !fs (join_paths bdir "args.gn") then
    "x64"
  else
    match o.readTextFile (join_paths bdir "args.gn") with
    | none => "x64"
    | some content =>
      match ["x64", "x86", "arm64"].find? (fun cpu =>
          strContains content ("target_cpu=\"" ++ cpu ++ "\"")) with
      | some cpu => cpu
      | none => "x64"

/-! Concrete fixtures used by witnesses and counterexamples. -/

/-- A concrete build context. -/
def ctxA : BuildContext :=
  { chromium_src := "C:/src", out_dir := "out/Default_x64",
    architecture := "x64", get_dist_dir := "C:/dist",
    get_app_base_name := "Nxtscape",
    get_nxtscape_chromium_version := "1.2.3",
    get_nxtscape_version := "9.9.9" }

/-- An oracle where every primitive succeeds and spawned commands create
every path. -/
def oracleCalm : Oracle :=
  { isWindows := true,
    runCmdRaises := fun _ => false,
    runCmdEffect := fun _ _ => fun _ => true,
    mkdirRaises := fun _ => false,
    copy2Raises := fun _ _ => false,
    zipRaises := fun _ => false,
    which := fun _ => none,
    glob := fun _ _ => [],
    readTextFile := fun _ => none,
    getpassOtp := "123456",
    signLocalPfx := fun _ _ => true }

/-- An oracle where every spawned command creates every path and then
raises. -/
def oracleRaise : Oracle := { oracleCalm with runCmdRaises := fun _ => true }

/-- An oracle where creating a directory raises. -/
def oracleMkdirRaise : Oracle :=
  { oracleCalm with mkdirRaises := fun _ => true }

/-- A state where no path exists. -/
def sysEmpty : Sys :=
  { pathExists := fun _ => false, zipEntryOf := fun _ => none,
    cwd := "C:/home" }

/-- A state where exactly `mini_installer.exe` of `ctxA` exists. -/
def sysMini : Sys :=
  { sysEmpty with pathExists := fun p => p == mini_installer_path ctxA }

/-- A filesystem where exactly the `chrome.exe` candidate of `ctxA` exists. -/
def fsChromeA : String → Bool :=
  fun p => p == join_paths (build_output_dir ctxA) "chrome.exe"

/-- An empty environment. -/
def envNone : Env := fun _ => none

/-- The state `create_installer` produces from `sysMini` under
`oracleCalm`. -/
def sysAfterCopy : Sys :=
  match create_installer ctxA oracleCalm sysMini with
  | Except.ok (_, s) => s
  | Except.error () => sysMini

/-- The state `create_portable_zip` produces from `sysMini` under
`oracleCalm`. -/
def sysAfterZip : Sys :=
  match create_portable_zip ctxA oracleCalm sysMini with
  | Except.ok (_, s) => s
  | Except.error () => sysMini

/-- An environment where only `SIGNING_METHOD` is set, to `ESIGNER`. -/
def envMethodUpper : Env :=
  fun k => if k == "SIGNING_METHOD" then some "ESIGNER" else none

/-- An environment where only `ESIGNER_USERNAME` is set, to the empty
string. -/
def envEmptyUser : Env :=
  fun k => if k == "ESIGNER_USERNAME" then some "" else none

/-- An environment where only `ESIGNER_USERNAME` is set, to `u`. -/
def envUser : Env :=
  fun k => if k == "ESIGNER_USERNAME" then some "u" else none

/-- An environment carrying a full eSigner credential set and a PFX path. -/
def envEsA : Env := fun k =>
  if k == "CODESIGNTOOL_PATH" then some "C:/cst.bat"
  else if k == "ESIGNER_USERNAME" then some "u"
  else if k == "ESIGNER_PASSWORD" then some "p"
  else if k == "ESIGNER_TOTP_SECRET" then some "t"
  else if k == "PFX_PATH" then some "C:/c.pfx"
  else none

/-- A filesystem holding exactly the CodeSignTool client and the PFX file of
`envEsA`. -/
def fsEsA : String → Bool :=
  fun p => p == "C:/cst.bat" || p == "C:/c.pfx"

/-- An oracle whose search path holds a `signtool`. -/
def oracleWhich : Oracle :=
  { oracleCalm with
    which := fun t => if t == "signtool" then some "C:/sdk/signtool.exe"
      else none }

/-- An oracle whose search path holds a `signtool` named `ST` and where
exactly the `verify` commands raise. -/
def oracleVerifyRaise : Oracle :=
  { oracleCalm with
    which := fun t => if t == "signtool" then some "ST" else none,
    runCmdRaises := fun c => c.getD 1 "" == "verify" }

/-! Theorems for the claims. -/

/-- C7: every Build Ensurer invocation that reaches the working-directory
change (the installer was absent) leaves the process working directory
after the invocation equal to its value before, both when the build command
succeeds and when it raises. -/
theorem C7_cwd_restored (ctx : BuildContext) (o : Oracle) (s : Sys)
    (h : s.pathExists (mini_installer_path ctx) = false) :
    ((build_mini_installer ctx o s).2.1).cwd = s.cwd := by
  simp only [build_mini_installer, h, Bool.false_eq_true, if_false,
    run_command]
  split
  · rfl
  · split <;> rfl

/-- Witness for C7 at a concrete raising invocation. -/
theorem C7_cwd_restored_witness :
    ((build_mini_installer ctxA oracleRaise sysEmpty).2.1).cwd =
      sysEmpty.cwd :=
  C7_cwd_restored ctxA oracleRaise sysEmpty rfl

/-- C8: when `CODESIGNTOOL_PATH` is set (non-empty) but names a non-existent
file, `sign_with_esigner` fails without consulting the fallback default
locations and without running any signing command. -/
theorem C8_env_path_no_fallback (binaries : List String) (o : Oracle)
    (env : Env) (fs : String → Bool) (p : String)
    (hset : env "CODESIGNTOOL_PATH" = some p) (hne : p ≠ "")
    (habs : fs p = false) :
    sign_with_esigner binaries o env fs = (false, []) := by
  have htool : codesigntool_path env fs = p := by
    simp [codesigntool_path, hset, truthy, hne]
  simp [sign_with_esigner, htool, habs]

/-- Witness for C8: `CODESIGNTOOL_PATH` points at a missing file while the
signing client does exist at the hard-coded fallback default location. -/
theorem C8_env_path_no_fallback_witness :
    sign_with_esigner ["C:/b/chrome.exe"] oracleCalm
      (fun k => if k == "CODESIGNTOOL_PATH" then some "C:/nope.bat" else none)
      (fun q => q == codesigntool_default) = (false, []) :=
  C8_env_path_no_fallback ["C:/b/chrome.exe"] oracleCalm _ _ "C:/nope.bat"
    rfl (by decide) rfl

/-- C9: `get_target_cpu` always returns one of `x64`, `x86`, `arm64`, and
returns the `x64` default when `args.gn` is absent, when reading it raises,
or when its content contains none of the three `target_cpu` patterns. -/
theorem C9_get_target_cpu (o : Oracle) (fs : String → Bool) (bdir : String) :
    (get_target_cpu o fs bdir = "x64" ∨ get_target_cpu o fs bdir = "x86" ∨
      get_target_cpu o fs bdir = "arm64") ∧
    (fs (join_paths bdir "args.gn") = false →
      get_target_cpu o fs bdir = "x64") ∧
    (o.readTextFile (join_paths bdir "args.gn") = none →
      get_target_cpu o fs bdir = "x64") ∧
    (∀ content, o.readTextFile (join_paths bdir "args.gn") = some content →
      strContains content "target_cpu=\"x64\"" = false →
      strContains content "target_cpu=\"x86\"" = false →
      strContains content "target_cpu=\"arm64\"" = false →
      get_target_cpu o fs bdir = "x64") := by
  refine ⟨?_, ?_, ?_, ?_⟩
  · unfold get_target_cpu
    split
    · exact Or.inl rfl
    · split
      · exact Or.inl rfl
      · split
        · rename_i cpu hfind
          have hmem := List.mem_of_find?_eq_some hfind
          simp only [List.mem_cons, List.not_mem_nil, or_false] at hmem
          rcases hmem with h | h | h
          · exact Or.inl h
          · exact Or.inr (Or.inl h)
          · exact Or.inr (Or.inr h)
        · exact Or.inl rfl
  · intro h
    simp [get_target_cpu, h]
  · intro h
    unfold get_target_cpu
    split
    · rfl
    · rw [h]
  · intro content hread h64 h86 harm
    have hnone : (["x64", "x86", "arm64"].find? fun cpu =>
        strContains content ("target_cpu=\"" ++ cpu ++ "\"")) = none := by
      rw [List.find?_eq_none]
      intro x hx
      fin_cases hx <;> simp [h64, h86, harm]
    unfold get_target_cpu
    split
    · rfl
    · rw [hread]
      dsimp only
      rw [hnone]

/-- Witness for C9 at a concrete absent `args.gn`. -/
theorem C9_get_target_cpu_witness :
    get_target_cpu oracleCalm (fun _ => false) "B" = "x64" :=
  (C9_get_target_cpu oracleCalm (fun _ => false) "B").2.1 rfl

/-- C4: when the installer copy succeeds the copied file carries exactly the
name `{app_base_name}_{nxtscape_chromium_version}_{architecture}_installer.exe`
in the distribution directory, when the zip creation succeeds the archive
carries the analogous `.zip` name while its single internal entry instead
uses the distinct `get_nxtscape_version` accessor, and for app `Nxtscape`,
version `1.2.3` and arch `x64` the outer names are exactly
`Nxtscape_1.2.3_x64_installer.exe` and `Nxtscape_1.2.3_x64_installer.zip`. -/
theorem C4_artifact_names (ctx : BuildContext) (o : Oracle) (s s' : Sys) :
    (create_installer ctx o s = Except.ok (true, s') →
      s'.pathExists (join_paths ctx.get_dist_dir
        (ctx.get_app_base_name ++ "_" ++ ctx.get_nxtscape_chromium_version ++
          "_" ++ ctx.architecture ++ "_installer.exe")) = true) ∧
    (create_portable_zip ctx o s = Except.ok (true, s') →
      s'.zipEntryOf (join_paths ctx.get_dist_dir
        (ctx.get_app_base_name ++ "_" ++ ctx.get_nxtscape_chromium_version ++
          "_" ++ ctx.architecture ++ "_installer.zip")) =
        some (ctx.get_app_base_name ++ "_" ++ ctx.get_nxtscape_version ++
          "_" ++ ctx.architecture ++ "_installer.exe")) ∧
    (ctx.get_app_base_name = "Nxtscape" →
      ctx.get_nxtscape_chromium_version = "1.2.3" →
      ctx.architecture = "x64" →
      ctx.get_nxtscape_version = "9.9.9" →
      installer_name ctx = "Nxtscape_1.2.3_x64_installer.exe" ∧
      zip_name ctx = "Nxtscape_1.2.3_x64_installer.zip" ∧
      zip_entry_name ctx = "Nxtscape_9.9.9_x64_installer.exe") := by
  refine ⟨?_, ?_, ?_⟩
  · intro h
    by_cases h1 : s.pathExists (mini_installer_path ctx) = true
    · by_cases h2 : o.mkdirRaises ctx.get_dist_dir = true
      · simp [create_installer, h1, h2] at h
      · by_cases h3 : o.copy2Raises (mini_installer_path ctx)
            (join_paths ctx.get_dist_dir (installer_name ctx)) = true
        · simp [create_installer, h1, h2, h3] at h
        · simp only [create_installer, h1, h2, h3, Bool.not_true,
            Bool.false_eq_true, if_false, Except.ok.injEq, Prod.mk.injEq,
            true_and] at h
          rw [← h]
          simp [addPath, installer_name]
    · simp [create_installer, h1] at h
  · intro h
    by_cases h1 : s.pathExists (mini_installer_path ctx) = true
    · by_cases h2 : o.mkdirRaises ctx.get_dist_dir = true
      · simp [create_portable_zip, h1, h2] at h
      · by_cases h3 : o.zipRaises
            (join_paths ctx.get_dist_dir (zip_name ctx)) = true
        · simp [create_portable_zip, h1, h2, h3] at h
        · simp only [create_portable_zip, h1, h2, h3, Bool.not_true,
            Bool.false_eq_true, if_false, Except.ok.injEq, Prod.mk.injEq,
            true_and] at h
          rw [← h]
          simp [zip_name, zip_entry_name]
    · simp [create_portable_zip, h1] at h
  · intro h1 h2 h3 h4
    unfold installer_name zip_name zip_entry_name
    rw [h1, h2, h3, h4]
    exact ⟨by decide, by decide, by decide⟩

/-- Witness for C4: concrete successful copy and zip runs, plus the concrete
names. -/
theorem C4_artifact_names_witness :
    sysAfterCopy.pathExists (join_paths ctxA.get_dist_dir
      (ctxA.get_app_base_name ++ "_" ++ ctxA.get_nxtscape_chromium_version ++
        "_" ++ ctxA.architecture ++ "_installer.exe")) = true ∧
    sysAfterZip.zipEntryOf (join_paths ctxA.get_dist_dir
      (ctxA.get_app_base_name ++ "_" ++ ctxA.get_nxtscape_chromium_version ++
        "_" ++ ctxA.architecture ++ "_installer.zip")) =
      some (ctxA.get_app_base_name ++ "_" ++ ctxA.get_nxtscape_version ++
        "_" ++ ctxA.architecture ++ "_installer.exe") ∧
    installer_name ctxA = "Nxtscape_1.2.3_x64_installer.exe" ∧
    zip_name ctxA = "Nxtscape_1.2.3_x64_installer.zip" ∧
    zip_entry_name ctxA = "Nxtscape_9.9.9_x64_installer.exe" :=
  ⟨(C4_artifact_names ctxA oracleCalm sysMini sysAfterCopy).1 rfl,
   (C4_artifact_names ctxA oracleCalm sysMini sysAfterZip).2.1 rfl,
   (C4_artifact_names ctxA oracleCalm sysMini sysMini).2.2 rfl rfl rfl rfl⟩

/-- C2 is false as stated: with `SIGNING_METHOD` set to `ESIGNER` — a value
that is not the string `esigner` — no certificate name, no `PFX_PATH`, no
`ESIGNER_USERNAME`, and an existing candidate binary, the dispatcher
lowercases the method, routes to the eSigner backend, and returns failure
instead of returning success without invoking a backend. -/
theorem C2_counterexample :
    sign_binaries ctxA none oracleCalm envMethodUpper fsChromeA =
      (false, []) := by decide

/-- C2 (amended): with at least one candidate binary existing, no
certificate name, `PFX_PATH` unset, `ESIGNER_USERNAME` unset, and the
lowercased `SIGNING_METHOD` value (defaulting to `signtool`) different from
`esigner`, the dispatcher returns success having run no command; and with no
candidate binary existing it returns failure immediately. -/
theorem C2_skip_and_fail (ctx : BuildContext) (cert : Option String)
    (o : Oracle) (env : Env) (fs : String → Bool) :
    (existing_binaries ctx fs ≠ [] →
      env "PFX_PATH" = none →
      env "ESIGNER_USERNAME" = none →
      str_lower ((env "SIGNING_METHOD").getD "signtool") ≠ "esigner" →
      sign_binaries ctx none o env fs = (true, [])) ∧
    (existing_binaries ctx fs = [] →
      sign_binaries ctx cert o env fs = (false, [])) := by
  constructor
  · intro hne hpfx huser hsm
    have hsm' :
        ((str_lower ((env "SIGNING_METHOD").getD "signtool")) == "esigner")
          = false := beq_eq_false_iff_ne.mpr hsm
    have hne' : (existing_binaries ctx fs).isEmpty = false := by
      cases hx : existing_binaries ctx fs with
      | nil => exact absurd hx hne
      | cons a l => rfl
    simp [sign_binaries, truthy, hne', hsm', huser, hpfx]
  · intro h
    simp [sign_binaries, h]

/-- Witness for C2 (amended): the skip configuration returns success with an
empty trace; an empty build directory makes the dispatcher fail. -/
theorem C2_skip_and_fail_witness :
    sign_binaries ctxA none oracleCalm envNone fsChromeA = (true, []) ∧
    sign_binaries ctxA (some "CERT") oracleCalm envNone (fun _ => false) =
      (false, []) :=
  ⟨(C2_skip_and_fail ctxA none oracleCalm envNone fsChromeA).1
      (by decide) rfl rfl (by decide),
   (C2_skip_and_fail ctxA (some "CERT") oracleCalm envNone
      (fun _ => false)).2 (by decide)⟩

/-- C3 is false as stated: with `ESIGNER_USERNAME` set — to the empty
string, which Python treats as falsy — the dispatcher takes the skip path
and returns success with no signing attempt, while the eSigner backend on
the same inputs would have returned failure; hence the eSigner backend is
not selected although the variable is set. -/
theorem C3_counterexample :
    sign_binaries ctxA none oracleCalm envEmptyUser fsChromeA = (true, []) ∧
    sign_with_esigner (existing_binaries ctxA fsChromeA) oracleCalm
      envEmptyUser fsChromeA = (false, []) :=
  ⟨by decide, by decide⟩

/-- C3 (amended): whenever at least one candidate binary exists and
`ESIGNER_USERNAME` is set to a non-empty value, the dispatcher's behaviour
is exactly that of the eSigner backend on the existing candidates —
whatever `SIGNING_METHOD`, `PFX_PATH` and the certificate name are. -/
theorem C3_esigner_selected (ctx : BuildContext) (cert : Option String)
    (o : Oracle) (env : Env) (fs : String → Bool)
    (huser : truthy (env "ESIGNER_USERNAME") = true)
    (hne : existing_binaries ctx fs ≠ []) :
    sign_binaries ctx cert o env fs =
      sign_with_esigner (existing_binaries ctx fs) o env fs := by
  have hne' : (existing_binaries ctx fs).isEmpty = false := by
    cases hx : existing_binaries ctx fs with
    | nil => exact absurd hx hne
    | cons a l => rfl
  simp [sign_binaries, hne', huser]

/-- Witness for C3 (amended) at a concrete environment whose only eSigner
datum is the username. -/
theorem C3_esigner_selected_witness :
    sign_binaries ctxA (some "CERT") oracleCalm envUser fsChromeA =
      sign_with_esigner (existing_binaries ctxA fsChromeA) oracleCalm envUser
        fsChromeA :=
  C3_esigner_selected ctxA (some "CERT") oracleCalm envUser fsChromeA
    (by decide) (by decide)

/-- C5 is false as stated: when the build command raises after having
produced `mini_installer.exe` (a failing build may still create the file),
the Build Ensurer returns failure although the installer binary exists when
it finishes, so success is not equivalent to final existence. -/
theorem C5_counterexample :
    (build_mini_installer ctxA oracleRaise sysEmpty).1 = false ∧
    ((build_mini_installer ctxA oracleRaise sysEmpty).2.1).pathExists
      (mini_installer_path ctxA) = true :=
  ⟨by decide, by decide⟩

/-- C5 (amended): the Build Ensurer returns success only if the installer
binary exists when it finishes; if the file already exists it returns
success immediately, unchanged state, no build command; if the file was
absent and the build command completes without raising, it returns success
exactly when the file exists afterward; if the build command raises, it
returns failure (even when the file exists afterward). -/
theorem C5_build_ensurer (ctx : BuildContext) (o : Oracle) (s : Sys) :
    (s.pathExists (mini_installer_path ctx) = true →
      build_mini_installer ctx o s = (true, s, [])) ∧
    ((build_mini_installer ctx o s).1 = true →
      ((build_mini_installer ctx o s).2.1).pathExists
        (mini_installer_path ctx) = true) ∧
    (s.pathExists (mini_installer_path ctx) = false →
      o.runCmdRaises (autoninja_build_cmd ctx o) = false →
      ((build_mini_installer ctx o s).1 = true ↔
        ((build_mini_installer ctx o s).2.1).pathExists
          (mini_installer_path ctx) = true)) ∧
    (s.pathExists (mini_installer_path ctx) = false →
      o.runCmdRaises (autoninja_build_cmd ctx o) = true →
      (build_mini_installer ctx o s).1 = false) := by
  refine ⟨?_, ?_, ?_, ?_⟩
  · intro h
    simp [build_mini_installer, h]
  · intro h
    by_cases h1 : s.pathExists (mini_installer_path ctx) = true
    · simp [build_mini_installer, h1]
    · have h1' : s.pathExists (mini_installer_path ctx) = false := by
        simpa using h1
      by_cases hr : o.runCmdRaises (autoninja_build_cmd ctx o) = true
      · simp [build_mini_installer, run_command, h1', hr] at h
      · have hr' : o.runCmdRaises (autoninja_build_cmd ctx o) = false := by
          simpa using hr
        by_cases hc : o.runCmdEffect (autoninja_build_cmd ctx o) s.pathExists
            (mini_installer_path ctx) = true
        · simp [build_mini_installer, run_command, h1', hr', hc]
        · simp [build_mini_installer, run_command, h1', hr', hc] at h
  · intro h1 hr
    by_cases hc : o.runCmdEffect (autoninja_build_cmd ctx o) s.pathExists
        (mini_installer_path ctx) = true
    · simp [build_mini_installer, run_command, h1, hr, hc]
    · simp [build_mini_installer, run_command, h1, hr, hc]
  · intro h1 hr
    simp [build_mini_installer, run_command, h1, hr]

/-- Witness for C5 (amended): an already-present installer returns success
with no build, and a raising build command returns failure. -/
theorem C5_build_ensurer_witness :
    build_mini_installer ctxA oracleCalm sysMini = (true, sysMini, []) ∧
    (build_mini_installer ctxA oracleRaise sysEmpty).1 = false :=
  ⟨(C5_build_ensurer ctxA oracleCalm sysMini).1 (by decide),
   (C5_build_ensurer ctxA oracleRaise sysEmpty).2.2.2 rfl rfl⟩

/-- C1 is false as stated: with `mini_installer.exe` present, an error
raised while creating the destination directory propagates out of both the
installer-copy and the zip-creation operations — the `mkdir` call sits
outside the `try` block — rather than being converted into a `false`
result. -/
theorem C1_counterexample :
    create_installer ctxA oracleMkdirRaise sysMini = Except.error () ∧
    create_portable_zip ctxA oracleMkdirRaise sysMini = Except.error () :=
  ⟨rfl, rfl⟩

/-- C1 (amended): every component operation returns a boolean result and
converts errors raised while copying, zipping or invoking an external tool
into a `false` result; the only exception that escapes an operation is an
error raised while creating the destination directory in the installer-copy
and zip-creation operations. When directory creation does not fail, those
two operations likewise return a boolean result with no escaping
exception. -/
theorem C1_total_amended (ctx : BuildContext) (o : Oracle) (s : Sys)
    (h : o.mkdirRaises ctx.get_dist_dir = false) :
    (∀ e, create_installer ctx o s ≠ Except.error e) ∧
    (∀ e, create_portable_zip ctx o s ≠ Except.error e) := by
  constructor
  · intro e hc
    by_cases h1 : s.pathExists (mini_installer_path ctx) = true
    · by_cases h3 : o.copy2Raises (mini_installer_path ctx)
          (join_paths ctx.get_dist_dir (installer_name ctx)) = true
      · simp [create_installer, h1, h, h3] at hc
      · simp [create_installer, h1, h, h3] at hc
    · simp [create_installer, h1] at hc
  · intro e hc
    by_cases h1 : s.pathExists (mini_installer_path ctx) = true
    · by_cases h3 : o.zipRaises
          (join_paths ctx.get_dist_dir (zip_name ctx)) = true
      · simp [create_portable_zip, h1, h, h3] at hc
      · simp [create_portable_zip, h1, h, h3] at hc
    · simp [create_portable_zip, h1] at hc

/-- Witness for C1 (amended) at a concrete failing copy primitive: the
error is converted, not propagated. -/
theorem C1_total_witness :
    (∀ e, create_installer ctxA
      { oracleCalm with copy2Raises := fun _ _ => true } sysMini ≠
        Except.error e) ∧
    (∀ e, create_portable_zip ctxA
      { oracleCalm with copy2Raises := fun _ _ => true } sysMini ≠
        Except.error e) :=
  C1_total_amended ctxA
    { oracleCalm with copy2Raises := fun _ _ => true } sysMini rfl

/-- Helper: in the certificate-store loop, a member binary whose sign
command did not raise but whose verify command raised forces an overall
`false` result. -/
theorem store_loop_false_of_verify (signtool cert : String) (o : Oracle)
    (bins : List String) (b : String) (hb : b ∈ bins)
    (hsign : o.runCmdRaises (store_sign_cmd signtool cert b) = false)
    (hver : o.runCmdRaises (store_verify_cmd signtool b) = true) :
    (store_loop signtool cert o bins).1 = false := by
  induction bins with
  | nil => cases hb
  | cons a l ih =>
    rcases List.mem_cons.mp hb with h | h
    · subst h
      simp [store_loop, hsign, hver]
    · simp [store_loop, ih h]

/-- Helper: the certificate-store loop attempts a sign command for every
member binary, whatever raised on the others. -/
theorem store_loop_sign_mem (signtool cert : String) (o : Oracle)
    (bins : List String) (b : String) (hb : b ∈ bins) :
    store_sign_cmd signtool cert b ∈ (store_loop signtool cert o bins).2 := by
  induction bins with
  | nil => cases hb
  | cons a l ih =>
    rcases List.mem_cons.mp hb with h | h
    · subst h
      by_cases h1 : o.runCmdRaises (store_sign_cmd signtool cert b) = true
      · simp [store_loop, h1]
      · by_cases h2 : o.runCmdRaises (store_verify_cmd signtool b) = true
        · simp [store_loop, h1, h2]
        · simp [store_loop, h1, h2]
    · simp only [store_loop, List.mem_append]
      exact Or.inr (ih h)

/-- C6: in certificate-store signing, when a binary's verification command
raises even though its sign command succeeded, the overall result is
failure, and the sign-then-verify sequence is still attempted on every
binary of the list (each binary's sign command is run). -/
theorem C6_store_verify (bins : List String) (cert : String) (o : Oracle)
    (fs : String → Bool) (st b : String)
    (hst : o.which "signtool" = some st)
    (hb : b ∈ bins)
    (hsign : o.runCmdRaises (store_sign_cmd st cert b) = false)
    (hver : o.runCmdRaises (store_verify_cmd st b) = true) :
    (sign_with_certificate_store bins cert o fs).1 = false ∧
    ∀ b' ∈ bins, store_sign_cmd st cert b' ∈
      (sign_with_certificate_store bins cert o fs).2 := by
  have hfind : find_signtool o fs = some st := by
    simp [find_signtool, hst]
  constructor
  · unfold sign_with_certificate_store
    rw [hfind]
    exact store_loop_false_of_verify st cert o bins b hb hsign hver
  · intro b' hb'
    unfold sign_with_certificate_store
    rw [hfind]
    exact store_loop_sign_mem st cert o bins b' hb'

/-- Witness for C6: two binaries whose verify commands raise; the result is
failure and both sign commands were attempted. -/
theorem C6_store_verify_witness :
    (sign_with_certificate_store ["C:/b/chrome.exe", "C:/b/mini_installer.exe"]
      "CERT" oracleVerifyRaise (fun _ => false)).1 = false ∧
    ∀ b' ∈ ["C:/b/chrome.exe", "C:/b/mini_installer.exe"],
      store_sign_cmd "ST" "CERT" b' ∈
        (sign_with_certificate_store
          ["C:/b/chrome.exe", "C:/b/mini_installer.exe"] "CERT"
          oracleVerifyRaise (fun _ => false)).2 :=
  C6_store_verify ["C:/b/chrome.exe", "C:/b/mini_installer.exe"] "CERT"
    oracleVerifyRaise (fun _ => false) "ST" "C:/b/chrome.exe" rfl
    (by decide) (by decide) (by decide)

/-- C10: each signing backend called directly with an empty binary list
returns success vacuously once its tool and credential preconditions pass:
the certificate-store backend when a `signtool` is found, the PFX backend
when `PFX_PATH` is truthy and exists, and the eSigner backend when the
CodeSignTool exists and the credentials pass — in TOTP mode, and even in
the otherwise-unsupported interactive OTP mode, whose failure sits inside
the never-executed loop body. -/
theorem C10_empty_batch (o : Oracle) (env : Env) (fs : String → Bool)
    (cert : String) :
    (∀ st, find_signtool o fs = some st →
      sign_with_certificate_store [] cert o fs = (true, [])) ∧
    (truthy (env "PFX_PATH") = true →
      fs ((env "PFX_PATH").getD "") = true →
      sign_with_pfx [] o env fs = (true, [])) ∧
    (fs (codesigntool_path env fs) = true →
      (str_lower ((env "ESIGNER_USE_OTP").getD "false") == "true") = false →
      truthy (env "ESIGNER_TOTP_SECRET") = true →
      truthy (env "ESIGNER_USERNAME") = true →
      truthy (env "ESIGNER_PASSWORD") = true →
      sign_with_esigner [] o env fs = (true, [])) ∧
    (fs (codesigntool_path env fs) = true →
      (str_lower ((env "ESIGNER_USE_OTP").getD "false") == "true") = true →
      o.getpassOtp ≠ "" → o.getpassOtp.length = 6 →
      truthy (env "ESIGNER_USERNAME") = true →
      truthy (env "ESIGNER_PASSWORD") = true →
      sign_with_esigner [] o env fs = (true, [])) := by
  refine ⟨?_, ?_, ?_, ?_⟩
  · intro st hst
    unfold sign_with_certificate_store
    rw [hst]
    rfl
  · intro h1 h2
    simp [sign_with_pfx, h1, h2]
  · intro h1 h2 h3 h4 h5
    simp [sign_with_esigner, h1, h2, h3, h4, h5, esigner_loop]
  · intro h1 h2 h3 h4 h5 h6
    have hne : (o.getpassOtp == "") = false := beq_eq_false_iff_ne.mpr h3
    simp [sign_with_esigner, h1, h2, h4, h5, h6, hne, esigner_loop]

/-- Witness for C10 at a concrete tool-and-credential configuration. -/
theorem C10_empty_batch_witness :
    sign_with_certificate_store [] "CERT" oracleWhich fsEsA = (true, []) ∧
    sign_with_pfx [] oracleWhich envEsA fsEsA = (true, []) ∧
    sign_with_esigner [] oracleWhich envEsA fsEsA = (true, []) :=
  ⟨(C10_empty_batch oracleWhich envEsA fsEsA "CERT").1
      "C:/sdk/signtool.exe" rfl,
   (C10_empty_batch oracleWhich envEsA fsEsA "CERT").2.1
      (by decide) (by decide),
   (C10_empty_batch oracleWhich envEsA fsEsA "CERT").2.2.1
      (by decide) (by decide) (by decide) (by decide) (by decide)⟩

end PackageWindows
